import Mathlib

/-!
Shallow embedding of the skycoin webrpc dispatch front-end
(`src/api/webrpc/webrpc.go`) and of the address/checksum codec
(`src/coin` address code) that ships in the same source file.

Conventions of the embedding:
* Go strings are Lean `String`, Go `int` is `Int`, bytes are `Nat`
  (each byte is a value below 256; fixed-size Go byte arrays become
  `Mathlib.Vector Nat n` so the length invariant of the array type is
  carried by the Lean type, exactly as Go's `[n]byte` carries it).
* A Go pointer field that may be `nil` (`*string`, `*RPCError`) becomes
  an `Option`; Go's `interface{}` result payload becomes a type
  parameter `α`, a `nil` interface being just one more value of `α`.
* Fallible Go functions returning `(T, error)` become `Except String T`.
* Code of the repository that is referenced but not present in the
  provided source (the HTTP serve/dispatch path, the handler bodies,
  `SumSHA256`, `ToAddressHash`) is either taken as a parameter or
  modelled from the specification; every such definition says so in its
  doc comment.
-/

set_option autoImplicit false

namespace Webrpc

/-- Error code for a JSON parse failure (`errCodeParseError`). -/
def errCodeParseError : Int := -32700

/-- Error code for an invalid request envelope (`errCodeInvalidRequest`). -/
def errCodeInvalidRequest : Int := -32600

/-- Error code for an unknown method (`errCodeMethodNotFound`). -/
def errCodeMethodNotFound : Int := -32601

/-- Error code for invalid method parameters (`errCodeInvalidParams`). -/
def errCodeInvalidParams : Int := -32602

/-- Error code for an internal error (`errCodeInternalError`). -/
def errCodeInternalError : Int := -32603

/-- Message paired with `errCodeParseError`. -/
def errMsgParseError : String := "Parse error"

/-- Message paired with `errCodeInvalidRequest`. -/
def errMsgInvalidRequest : String := "Invalid Request"

/-- Message paired with `errCodeMethodNotFound`. -/
def errMsgMethodNotFound : String := "Method not found"

/-- Message paired with `errCodeInvalidParams`. -/
def errMsgInvalidParams : String := "Invalid params"

/-- Message paired with `errCodeInternalError`. -/
def errMsgInternalError : String := "Internal error"

/-- Plain-text rejection for non-POST verbs (`errMsgNotPost`). -/
def errMsgNotPost : String := "only support http POST"

/-- Message used when the `jsonrpc` field mismatches (`errMsgInvalidJsonrpc`). -/
def errMsgInvalidJsonrpc : String := "invalid jsonrpc"

/-- The fixed protocol version literal (`jsonRPC`). -/
def jsonRPC : String := "2.0"

/-- The `Request` rpc request struct: id, jsonrpc, method and the
string-to-string params map (modelled as an association list). -/
structure Request where
  ID : String
  Jsonrpc : String
  Method : String
  Params : List (String × String)
  deriving Repr, DecidableEq

/-- The `RPCError` response error: code, message, and the optional `data`
field whose Go zero value is the empty string. -/
structure RPCError where
  Code : Int
  Message : String
  Data : String
  deriving Repr, DecidableEq

/-- The `Response` rpc response struct. `ID` is `*string` in Go (`none` is
the JSON `null` id), `Error` is a nilable `*RPCError`, and `Result` is
the `interface{}` payload, a type parameter here; `none` is the absent
(Go `nil`) result. -/
structure Response (α : Type) where
  ID : Option String
  Jsonrpc : String
  Error : Option RPCError
  Result : Option α
  deriving Repr, DecidableEq

/-- Function `NewRequest` creates a new webrpc request. -/
def NewRequest (method : String) (params : List (String × String)) (id : String) : Request :=
  { Jsonrpc := jsonRPC, Method := method, Params := params, ID := id }

/-- Function `makeSuccessResponse`: id and result set, the `Error` field left at
its zero value (`nil`). -/
def makeSuccessResponse {α : Type} (id : String) (result : α) : Response α :=
  { ID := some id, Result := some result, Jsonrpc := jsonRPC, Error := none }

/-- Function `makeErrorResponse`: error set from code and message (Go leaves
`Data` at its zero value `""`), the `ID` and `Result` fields left at
their zero values (`nil`). -/
def makeErrorResponse {α : Type} (code : Int) (message : String) : Response α :=
  { Error := some { Code := code, Message := message, Data := "" },
    Jsonrpc := jsonRPC, ID := none, Result := none }

/-- The four handler functions registered by `makeRPC`
(`getStatusHandler`, `getLastBlocksHandler`, `getBlocksHandler`,
`getOutputsHandler`). Modelled from the spec: the handler bodies are
not in the provided source; each is a thin adapter over the Gateway
collaborator, so for registry purposes they are four distinct opaque
labels. -/
inductive Handler where
  | getStatusHandler
  | getLastBlocksHandler
  | getBlocksHandler
  | getOutputsHandler
  deriving Repr, DecidableEq

/-- Modelled from the spec: the `rpcHandler` type built by
`newRPCHandler` is not in the provided source. It holds the startup
configuration (queue capacity, worker count) and the Handler Registry,
an immutable mapping from method name to handler built once at
startup. -/
structure RpcHandler where
  queueSize : Nat
  workerNum : Nat
  mux : List (String × Handler)
  deriving Repr, DecidableEq

/-- Modelled from the spec: `newRPCHandler` is not in the provided
source. It records the configuration and starts with an empty
registry. -/
def newRPCHandler (queueSize workerNum : Nat) : RpcHandler :=
  { queueSize := queueSize, workerNum := workerNum, mux := [] }

/-- Modelled from the spec: `HandlerFunc` is not in the provided
source. Registering a method name that is already bound is a
construction-time fatal error (modelled as `none`); otherwise the
binding is appended to the registry. -/
def HandlerFunc (rpc : RpcHandler) (method : String) (h : Handler) : Option RpcHandler :=
  if (rpc.mux.map Prod.fst).contains method then none
  else some { rpc with mux := rpc.mux ++ [(method, h)] }

/-- Function `makeRPC` builds the handler and registers the node's four
methods. The registrations are chained through the fatal-on-duplicate
registration step. -/
def makeRPC (queueSize workerNum : Nat) : Option RpcHandler :=
  (HandlerFunc (newRPCHandler queueSize workerNum) "get_status" .getStatusHandler).bind
    (fun rpc => (HandlerFunc rpc "get_lastblocks" .getLastBlocksHandler).bind
      (fun rpc => (HandlerFunc rpc "get_blocks" .getBlocksHandler).bind
        (fun rpc => HandlerFunc rpc "get_outputs" .getOutputsHandler)))

/-- Result of the validation step on one POST body: either a terminal
`Response` returned synchronously without ever reaching the dispatch
queue, or a validated request admitted to the queue. -/
inductive HandleResult (α : Type) where
  | immediate (r : Response α)
  | admitted (req : Request)
  deriving Repr, DecidableEq

/-- Modelled from the spec: the Protocol Validator (the `ServeHTTP`
body) is not in the provided source. The body is given after JSON
parsing, `none` meaning the body failed to parse as a `Request`.
Parse failure returns `id = null`, Parse error, bypassing the queue;
a `jsonrpc` mismatch returns Invalid Request, message
"invalid jsonrpc", id echoed; an empty or unregistered method returns
Method not found, id echoed; otherwise the request is admitted. -/
def handle {α : Type} (registered : String → Bool) (body : Option Request) :
    HandleResult α :=
  match body with
  | none => .immediate (makeErrorResponse errCodeParseError errMsgParseError)
  | some req =>
    if req.Jsonrpc ≠ jsonRPC then
      .immediate { makeErrorResponse errCodeInvalidRequest errMsgInvalidJsonrpc with
                   ID := some req.ID }
    else if req.Method = "" ∨ ¬ registered req.Method then
      .immediate { makeErrorResponse errCodeMethodNotFound errMsgMethodNotFound with
                   ID := some req.ID }
    else
      .admitted req

/-- Outcome of running an admitted request's handler: a result value,
a handler-signalled bad-input failure, or an internal fault. -/
inductive HandlerOutcome (α : Type) where
  | ok (v : α)
  | invalidParams
  | fault
  deriving Repr, DecidableEq

/-- Modelled from the spec: the worker execution path is not in the
provided source. An admitted request's handler outcome is converted to
a `Response` with the request's id echoed: a result value becomes a
success response, bad input maps to Invalid params, and an internal
fault is caught and converted to Internal error. -/
def serve {α : Type} (registered : String → Bool) (run : Request → HandlerOutcome α)
    (body : Option Request) : Response α :=
  match handle registered body with
  | .immediate r => r
  | .admitted req =>
    match run req with
    | .ok v => makeSuccessResponse req.ID v
    | .invalidParams =>
      { makeErrorResponse errCodeInvalidParams errMsgInvalidParams with ID := some req.ID }
    | .fault =>
      { makeErrorResponse errCodeInternalError errMsgInternalError with ID := some req.ID }

/-- How one pass through `Start`'s loop ends, seen from the caller:
`Start` returns, or `logger.Fatal` terminates the whole process, or
`http.ListenAndServe` keeps serving and never comes back. -/
inductive StartOutcome where
  | returned
  | fatalExit
  deriving Repr, DecidableEq

/-- One pass of the `Start` loop: `select` takes the shutdown branch when the
shutdown channel `c` delivers (`Start` returns), otherwise the default
branch calls `http.ListenAndServe`, which either serves forever
(no outcome, `none`) or comes back with a listener failure that
`logger.Fatal` turns into process termination. The loop never reaches
a second iteration: the default branch either blocks forever or kills
the process. `shutdownReady` says whether the shutdown channel has
delivered; `listenReturns` says whether `ListenAndServe` comes back
with an error. -/
def Start (shutdownReady listenReturns : Bool) : Option StartOutcome :=
  if shutdownReady then some .returned
  else if listenReturns then some .fatalExit
  else none

end Webrpc

namespace Coin

/-- The default address version: the map `addressVersions` binds
"main" to `0x0F` and "test" to `0x1F`, and the global default
`addressVersion` is the "test" entry. -/
def addressVersions : String → Option Nat :=
  fun name => if name = "main" then some 0x0F
    else if name = "test" then some 0x1F else none

/-- Function `VersionByName` returns the named address version and whether it
is a known version. -/
def VersionByName (name : String) : Option Nat :=
  addressVersions name

/-- The global default `addressVersion`, `addressVersions["test"]`. -/
def addressVersion : Nat := 0x1F

/-- The `Address` struct: 25 bytes in all, a 20 byte pubkey hash `Key`,
1 byte `Version`, and a 4 byte checksum `ChkSum` (first 4 bytes of
sha256 of key+version). The fixed-length Go arrays become vectors. -/
structure Address where
  Key : Mathlib.Vector Nat 20
  Version : Nat
  ChkSum : Mathlib.Vector Nat 4
  deriving DecidableEq

/-- Method `Checksum` returns the address checksum: the first 4 bytes of
`SumSHA256(key+version)` (version comes after the key to support
vanity addresses). `SumSHA256` is the node's sha256 helper returning
32 bytes; its body is not in the provided source, so it is a
parameter here. -/
def Address.Checksum (SumSHA256 : List Nat → Mathlib.Vector Nat 32) (a : Address) :
    Mathlib.Vector Nat 4 :=
  ⟨(SumSHA256 (a.Key.toList ++ [a.Version])).toList.take 4, by
    simp [List.length_take]⟩

/-- Method `IsValidChecksum` checks `bytes.Equal` of the computed checksum
against the stored `ChkSum`. -/
def Address.IsValidChecksum (SumSHA256 : List Nat → Mathlib.Vector Nat 32)
    (a : Address) : Bool :=
  (a.Checksum SumSHA256).toList == a.ChkSum.toList

/-- Method `setChecksum` writes the computed checksum into the address. -/
def Address.setChecksum (SumSHA256 : List Nat → Mathlib.Vector Nat 32)
    (a : Address) : Address :=
  { a with ChkSum := a.Checksum SumSHA256 }

/-- Method `Bytes` returns the address as raw bytes: the 20 key bytes, then
the version byte, then the 4 checksum bytes. -/
def Address.Bytes (a : Address) : List Nat :=
  a.Key.toList ++ [a.Version] ++ a.ChkSum.toList

/-- Function `addressFromBytes` parses an `Address.Bytes()` image: the length
must be `keyLen + len(ChkSum) + 1 = 25`, the key is the first 20
bytes, the version byte follows, the checksum is the trailing 4
bytes, and the checksum must validate. -/
def addressFromBytes (SumSHA256 : List Nat → Mathlib.Vector Nat 32)
    (b : List Nat) : Except String Address :=
  if h : b.length = 20 + 4 + 1 then
    let a : Address :=
      { Key := ⟨b.take 20, by rw [List.length_take]; omega⟩
        Version := b.get ⟨20, by omega⟩
        ChkSum := ⟨b.drop 21, by rw [List.length_drop]; omega⟩ }
    if a.IsValidChecksum SumSHA256 then .ok a
    else .error "Invalid checksum"
  else .error "Invalid address bytes"

/-- Function `AddressFromPubKey` creates an address from a public key: the key
field is `pubKey.ToAddressHash()` (ripemd160 over sha256 of the key;
`PubKey` and `ToAddressHash` are not in the provided source, so the
20-byte address hash is a parameter here), the version is the global
default, and the checksum is then set. -/
def AddressFromPubKey (SumSHA256 : List Nat → Mathlib.Vector Nat 32)
    (addressHash : Mathlib.Vector Nat 20) : Address :=
  Address.setChecksum SumSHA256
    { Key := addressHash, Version := addressVersion
      ChkSum := ⟨[0, 0, 0, 0], rfl⟩ }

/-- A stand-in hash used to evaluate the codec at concrete inputs:
it maps every payload to 32 zero bytes. -/
def zeroHash : List Nat → Mathlib.Vector Nat 32 :=
  fun _ => ⟨List.replicate 32 0, by simp⟩

/-- A concrete address whose stored checksum agrees with `zeroHash`:
all-zero key, the default version byte, all-zero checksum. -/
def zeroAddress : Address :=
  { Key := ⟨List.replicate 20 0, by simp⟩, Version := 31
    ChkSum := ⟨[0, 0, 0, 0], rfl⟩ }

end Coin

section Theorems

open Webrpc Coin

/-- C1: every Response produced by the service contains exactly one of
result or error: `makeSuccessResponse` yields a Response with the
result set and no error, and `makeErrorResponse` yields a Response
with the error set (carrying the given code and message) and no
result. -/
theorem response_exactly_one_of_result_or_error :
    (∀ (α : Type) (id : String) (result : α),
      (makeSuccessResponse id result).Result = some result ∧
      (makeSuccessResponse id result).Error = none) ∧
    (∀ (α : Type) (code : Int) (message : String),
      (makeErrorResponse (α := α) code message).Error
        = some { Code := code, Message := message, Data := "" } ∧
      (makeErrorResponse (α := α) code message).Result = none) :=
  ⟨fun _ _ _ => ⟨rfl, rfl⟩, fun _ _ _ => ⟨rfl, rfl⟩⟩

/-- C2: for every request whose envelope is parseable the returned
Response's id equals the request's id, and the id is null exactly when
the body could not be parsed: the served Response's `ID` is the parse
result's id, mapped through `Option`. -/
theorem response_id_echoes_request_id :
    ∀ (α : Type) (registered : String → Bool)
      (run : Request → HandlerOutcome α) (body : Option Request),
      (serve registered run body).ID = body.map Request.ID := by
  intro α registered run body
  cases body with
  | none => rfl
  | some req =>
    simp only [serve, handle, Option.map_some']
    by_cases h1 : req.Jsonrpc ≠ jsonRPC
    · rw [if_pos h1]
    · rw [if_neg h1]
      by_cases h2 : req.Method = "" ∨ ¬registered req.Method = true
      · rw [if_pos h2]
      · rw [if_neg h2]
        cases hr : run req <;> simp [hr, jsonRPC, makeSuccessResponse, makeErrorResponse]

/-- C3: the error codes are exactly the fixed taxonomy, each constant
paired with its matching human-readable message. -/
theorem error_code_taxonomy :
    errCodeParseError = -32700 ∧ errMsgParseError = "Parse error" ∧
    errCodeInvalidRequest = -32600 ∧ errMsgInvalidRequest = "Invalid Request" ∧
    errCodeMethodNotFound = -32601 ∧ errMsgMethodNotFound = "Method not found" ∧
    errCodeInvalidParams = -32602 ∧ errMsgInvalidParams = "Invalid params" ∧
    errCodeInternalError = -32603 ∧ errMsgInternalError = "Internal error" :=
  ⟨rfl, rfl, rfl, rfl, rfl, rfl, rfl, rfl, rfl, rfl⟩

/-- C4: every Response output by the service, success or error, and in
particular every Response produced by the serve path, has its
`jsonrpc` field equal to the fixed protocol literal "2.0". -/
theorem response_jsonrpc_always_2_0 :
    (∀ (α : Type) (id : String) (result : α),
      (makeSuccessResponse id result).Jsonrpc = "2.0") ∧
    (∀ (α : Type) (code : Int) (message : String),
      (makeErrorResponse (α := α) code message).Jsonrpc = "2.0") ∧
    (∀ (α : Type) (registered : String → Bool)
       (run : Request → HandlerOutcome α) (body : Option Request),
      (serve registered run body).Jsonrpc = "2.0") := by
  refine ⟨fun _ _ _ => rfl, fun _ _ _ => rfl, ?_⟩
  intro α registered run body
  cases body with
  | none => rfl
  | some req =>
    simp only [serve, handle]
    by_cases h1 : req.Jsonrpc ≠ jsonRPC
    · rw [if_pos h1]; rfl
    · rw [if_neg h1]
      by_cases h2 : req.Method = "" ∨ ¬registered req.Method = true
      · rw [if_pos h2]; rfl
      · rw [if_neg h2]
        cases hr : run req <;> simp [hr, jsonRPC, makeSuccessResponse, makeErrorResponse]

/-- C5: a body that fails to parse as JSON is answered synchronously
with id null and error code -32700 "Parse error", and the request
never reaches the dispatch queue: the validator yields an `immediate`
response, never an `admitted` item. -/
theorem parse_error_bypasses_queue :
    ∀ (α : Type) (registered : String → Bool),
      handle (α := α) registered none
        = .immediate (makeErrorResponse errCodeParseError errMsgParseError) ∧
      (makeErrorResponse (α := α) errCodeParseError errMsgParseError).ID = none ∧
      (makeErrorResponse (α := α) errCodeParseError errMsgParseError).Error
        = some { Code := -32700, Message := "Parse error", Data := "" } :=
  fun _ _ => ⟨rfl, rfl, rfl⟩

/-- C6: a parseable request whose `jsonrpc` field is not "2.0" is
answered with error code -32600 and message "invalid jsonrpc" (id
echoed). -/
theorem invalid_jsonrpc_rejected :
    ∀ (α : Type) (registered : String → Bool)
      (run : Request → HandlerOutcome α) (req : Request),
      req.Jsonrpc ≠ "2.0" →
      (serve registered run (some req)).Error
        = some { Code := -32600, Message := "invalid jsonrpc", Data := "" } ∧
      (serve registered run (some req)).ID = some req.ID := by
  intro α registered run req h
  have h1 : req.Jsonrpc ≠ jsonRPC := h
  simp only [serve, handle]
  rw [if_pos h1]
  exact ⟨rfl, rfl⟩

/-- Witness for C6 at a concrete request with `jsonrpc = "1.0"`. -/
theorem invalid_jsonrpc_rejected_witness :
    ("1.0" : String) ≠ "2.0" ∧
    (serve (fun _ => true) (fun _ => HandlerOutcome.ok 0)
        (some { ID := "7", Jsonrpc := "1.0", Method := "get_status", Params := [] })
      : Response Nat).Error
        = some { Code := -32600, Message := "invalid jsonrpc", Data := "" } :=
  ⟨by decide,
   (invalid_jsonrpc_rejected Nat (fun _ => true) (fun _ => HandlerOutcome.ok 0)
     { ID := "7", Jsonrpc := "1.0", Method := "get_status", Params := [] }
     (by decide)).1⟩

/-- C7: `makeRPC` registers exactly the four methods get_status,
get_lastblocks, get_blocks and get_outputs, in that order, and no
others, for any queue size and worker count. -/
theorem makeRPC_registers_exactly_four_methods :
    ∀ queueSize workerNum : Nat,
      (makeRPC queueSize workerNum).map (fun rpc => rpc.mux.map Prod.fst)
        = some ["get_status", "get_lastblocks", "get_blocks", "get_outputs"] :=
  fun _ _ => rfl

/-- C8: `Start` returns only on the branch where the shutdown channel
delivers; when the shutdown signal has not fired a listener failure
terminates the process (`logger.Fatal`) instead of making `Start`
return, and with neither event `Start` never comes back. -/
theorem start_returns_only_after_shutdown :
    (∀ shutdownReady listenReturns : Bool,
      Start shutdownReady listenReturns = some StartOutcome.returned →
      shutdownReady = true) ∧
    (∀ listenReturns : Bool,
      Start true listenReturns = some StartOutcome.returned) ∧
    Start false true = some StartOutcome.fatalExit ∧
    Start false false = none := by
  refine ⟨?_, fun _ => rfl, rfl, rfl⟩
  intro s l h
  cases s with
  | true => rfl
  | false => cases l <;> simp [Start] at h

/-- Witness for C8 at the concrete shutdown-delivered input. -/
theorem start_returns_only_after_shutdown_witness :
    Start true false = some StartOutcome.returned ∧ (true : Bool) = true :=
  ⟨rfl, start_returns_only_after_shutdown.1 true false rfl⟩

/-- Helper: decoding the byte image of an address succeeds with that
very address exactly when its stored checksum validates. -/
theorem addressFromBytes_bytes (H : List Nat → Mathlib.Vector Nat 32) (a : Address) :
    addressFromBytes H a.Bytes
      = if a.IsValidChecksum H then Except.ok a else Except.error "Invalid checksum" := by
  rcases a with ⟨⟨k, hk⟩, v, ⟨c, hc⟩⟩
  have hb : Address.Bytes ⟨⟨k, hk⟩, v, ⟨c, hc⟩⟩ = k ++ ([v] ++ c) := by
    simp [Address.Bytes]
  have hl : (k ++ ([v] ++ c)).length = 20 + 4 + 1 := by simp [hk, hc]
  have htake : (k ++ ([v] ++ c)).take 20 = k := by
    rw [← hk]; exact List.take_left k ([v] ++ c)
  have hdrop : (k ++ ([v] ++ c)).drop 21 = c := by
    have h21 : (k ++ [v]).length = 21 := by simp [hk]
    rw [← List.append_assoc, ← h21]
    exact List.drop_left (k ++ [v]) c
  have hgetB : ∀ (pf : 20 < (Address.Bytes ⟨⟨k, hk⟩, v, ⟨c, hc⟩⟩).length),
      (Address.Bytes ⟨⟨k, hk⟩, v, ⟨c, hc⟩⟩).get ⟨20, pf⟩ = v := by
    intro pf
    show ((k ++ [v]) ++ c).get ⟨20, pf⟩ = v
    rw [List.get_eq_getElem]
    rw [List.getElem_append_left (by simp [hk] : 20 < (k ++ [v]).length)]
    rw [List.getElem_append_right (by omega : k.length ≤ 20)]
    simp [hk]
  simp only [addressFromBytes, hb]
  rw [dif_pos hl]
  simp only [htake, hdrop, hgetB]

/-- C9: `addressFromBytes` fails exactly when the byte string is not
25 bytes long or its trailing 4 bytes differ from the first 4 bytes of
the hash of the 20-byte key followed by the version byte; on success
the decoded address's byte image is the input. -/
theorem addressFromBytes_error_iff :
    ∀ (SumSHA256 : List Nat → Mathlib.Vector Nat 32) (b : List Nat),
      ((∃ e, addressFromBytes SumSHA256 b = Except.error e) ↔
        (b.length ≠ 25 ∨
         b.drop 21 ≠ (SumSHA256 (b.take 20 ++ [b.getD 20 0])).toList.take 4)) ∧
      (∀ a, addressFromBytes SumSHA256 b = Except.ok a → a.Bytes = b) := by
  intro H b
  by_cases hl : b.length = 25
  · have h20 : 20 < b.length := by omega
    obtain ⟨a0, hKey, hVer, hChk⟩ :
        ∃ a0 : Address, a0.Key.toList = b.take 20 ∧
          a0.Version = b.getD 20 0 ∧ a0.ChkSum.toList = b.drop 21 :=
      ⟨⟨⟨b.take 20, by rw [List.length_take]; omega⟩, b.getD 20 0,
        ⟨b.drop 21, by rw [List.length_drop]; omega⟩⟩, rfl, rfl, rfl⟩
    have hb : a0.Bytes = b := by
      rw [Address.Bytes, hKey, hVer, hChk]
      rw [List.getD_eq_getElem b 0 h20]
      rw [List.append_assoc]
      rw [show (21 : Nat) = 20 + 1 from rfl]
      rw [List.singleton_append]
      rw [← List.drop_eq_getElem_cons h20]
      exact List.take_append_drop 20 b
    have hvalid : (a0.IsValidChecksum H = true)
        ↔ (H (b.take 20 ++ [b.getD 20 0])).toList.take 4 = b.drop 21 := by
      simp [Address.IsValidChecksum, Address.Checksum, hKey, hVer, hChk]
    have hafb : addressFromBytes H b
        = if a0.IsValidChecksum H then Except.ok a0
          else Except.error "Invalid checksum" := by
      conv_lhs => rw [← hb]
      exact addressFromBytes_bytes H a0
    constructor
    · by_cases hv : a0.IsValidChecksum H = true
      · rw [hafb, if_pos hv]
        constructor
        · rintro ⟨e, he⟩; simp at he
        · rintro (h25 | hne)
          · exact (h25 hl).elim
          · exact (hne (hvalid.mp hv).symm).elim
      · rw [hafb, if_neg hv]
        constructor
        · intro _
          right
          intro heq
          exact hv (hvalid.mpr heq.symm)
        · intro _
          exact ⟨"Invalid checksum", rfl⟩
    · intro a ha
      rw [hafb] at ha
      by_cases hv : a0.IsValidChecksum H = true
      · rw [if_pos hv] at ha
        injection ha with h
        rw [← h]
        exact hb
      · rw [if_neg hv] at ha
        simp at ha
  · have herr : addressFromBytes H b = Except.error "Invalid address bytes" := by
      simp only [addressFromBytes]
      rw [dif_neg (by omega : ¬ b.length = 20 + 4 + 1)]
    constructor
    · constructor
      · intro _
        exact Or.inl hl
      · intro _
        exact ⟨"Invalid address bytes", herr⟩
    · intro a ha
      rw [herr] at ha
      simp at ha

/-- Witness for C9 at a concrete 25-byte image decoding successfully. -/
theorem addressFromBytes_error_iff_witness :
    addressFromBytes zeroHash zeroAddress.Bytes = Except.ok zeroAddress ∧
    Coin.Address.Bytes zeroAddress = zeroAddress.Bytes :=
  ⟨by rfl,
   (addressFromBytes_error_iff zeroHash zeroAddress.Bytes).2 zeroAddress (by rfl)⟩

/-- C10: the byte image of any address is exactly 25 bytes laid out as
key, version, checksum; any address with a valid checksum — in
particular any address built by `AddressFromPubKey` — round-trips
through `addressFromBytes` to itself. -/
theorem address_bytes_roundtrip :
    (∀ a : Address, a.Bytes.length = 25 ∧
      a.Bytes = a.Key.toList ++ [a.Version] ++ a.ChkSum.toList) ∧
    (∀ (SumSHA256 : List Nat → Mathlib.Vector Nat 32) (a : Address),
      a.IsValidChecksum SumSHA256 = true →
      addressFromBytes SumSHA256 a.Bytes = Except.ok a) ∧
    (∀ (SumSHA256 : List Nat → Mathlib.Vector Nat 32)
       (addressHash : Mathlib.Vector Nat 20),
      (AddressFromPubKey SumSHA256 addressHash).IsValidChecksum SumSHA256 = true ∧
      addressFromBytes SumSHA256 (AddressFromPubKey SumSHA256 addressHash).Bytes
        = Except.ok (AddressFromPubKey SumSHA256 addressHash)) := by
  refine ⟨?_, ?_, ?_⟩
  · intro a
    refine ⟨?_, rfl⟩
    simp [Address.Bytes]
  · intro H a hv
    rw [addressFromBytes_bytes H a, if_pos hv]
  · intro H kh
    have hv : (AddressFromPubKey H kh).IsValidChecksum H = true := by
      simp [AddressFromPubKey, Address.setChecksum, Address.IsValidChecksum,
        Address.Checksum]
    exact ⟨hv, by rw [addressFromBytes_bytes, if_pos hv]⟩

/-- Witness for C10 at a concrete valid-checksum address. -/
theorem address_bytes_roundtrip_witness :
    Coin.Address.IsValidChecksum zeroHash zeroAddress = true ∧
    addressFromBytes zeroHash zeroAddress.Bytes = Except.ok zeroAddress :=
  ⟨by decide, address_bytes_roundtrip.2.1 zeroHash zeroAddress (by decide)⟩

end Theorems
